import Mathlib

/-!
Shallow embedding of `src/flashlight_assembly.py`: a choreography driver that
issues motion and tool commands to one robot handle.  Each driver call is
modelled as a `Cmd`; each Python function becomes a Lean function returning
the list of commands it issues, in order.  Dictionary lookups that can raise
`KeyError` are modelled with `Option`.
-/

namespace FlashlightAssembly

/-- A Cartesian pose `(x, y, z, roll, pitch, yaw)` in millimetres/degrees,
as built by the Python `Pose(...)` constructor. -/
structure Pose where
  x : ℚ
  y : ℚ
  z : ℚ
  roll : ℚ
  pitch : ℚ
  yaw : ℚ
deriving DecidableEq, Repr

/-- A joint-space target: the six joint angles in degrees. -/
abbrev Joints := List ℚ

/-- One command issued to the robot handle.  `moveJJoints`/`moveLJoints` are
`MoveJ`/`MoveL` with a joint-angle target, `moveJPose`/`moveLPose` with a
Cartesian pose target; `runCodeCustom` is `RunCodeCustom` with its literal
code string. -/
inductive Cmd where
  | moveJJoints (j : Joints)
  | moveJPose (p : Pose)
  | moveLPose (p : Pose)
  | moveLJoints (j : Joints)
  | runCodeCustom (s : String)
  | setSpeed (v : ℚ)
  | setAcceleration (v : ℚ)
  | setSpeedJoints (v : ℚ)
deriving DecidableEq, Repr

/-- Exact decimal literal: `dec m e` is the rational `m / 10^e`.  The
source writes coordinates and angles as decimal float literals; every such
literal is represented here exactly, e.g. `-322.25` as `dec (-32225) 2`. -/
def dec (m : ℤ) (e : ℕ) : ℚ := mkRat m (10 ^ e)

/-- Source `GLOBAL_ACCELERATION = 500` (mm/s²). -/
def GLOBAL_ACCELERATION : ℚ := 500

/-- Source `tray_coords`: the tray-slot dictionary, keys 0–4; `none` models a
`KeyError` on any other key. -/
def tray_coords (i : ℤ) : Option (ℚ × ℚ) :=
  if i = 0 then some (dec (-4144) 1, dec (-45617) 2)
  else if i = 1 then some (dec (-33485) 2, dec (-45672) 2)
  else if i = 2 then some (dec (-25908) 2, dec (-45745) 2)
  else if i = 3 then some (dec (-18253) 2, dec (-45690) 2)
  else if i = 4 then some (dec (-2568) 1, dec (-4581) 1)
  else none

/-- Source `CLEAR_HEIGHT = 130` (mm). -/
def CLEAR_HEIGHT : ℚ := 130

/-- Source `HOME_POSITION`: home joint target in degrees. -/
def HOME_POSITION : Joints := [0, -90, 0, -90, 0, 0]

/-- Source `GRIP_HEIGHTS["endcap"]`. -/
def GRIP_HEIGHTS_endcap : ℚ := 10
/-- Source `GRIP_HEIGHTS["battery"]`. -/
def GRIP_HEIGHTS_battery : ℚ := 34
/-- Source `GRIP_HEIGHTS["head"]`. -/
def GRIP_HEIGHTS_head : ℚ := dec 653 1
/-- Source `GRIP_HEIGHTS["pedestal"]`. -/
def GRIP_HEIGHTS_pedestal : ℚ := dec 609 1

/-- Source `CLAMP_XY`: shared clamp anchor `[-322.98, 38.3]`. -/
def CLAMP_XY : ℚ × ℚ := (dec (-32298) 2, dec 383 1)

/-- Source `CLAMP_HEIGHTS["release_head"]`. -/
def CLAMP_HEIGHTS_release_head : ℚ := dec 1639 1
/-- Source `CLAMP_HEIGHTS["release_battery"]`. -/
def CLAMP_HEIGHTS_release_battery : ℚ := dec 192751 3
/-- Source `CLAMP_HEIGHTS["release_endcap"]`. -/
def CLAMP_HEIGHTS_release_endcap : ℚ := dec 19731 2
/-- Source `CLAMP_HEIGHTS["pickup_flashlight"]`. -/
def CLAMP_HEIGHTS_pickup_flashlight : ℚ := 187
/-- Source `CLAMP_HEIGHTS["clear"]`. -/
def CLAMP_HEIGHTS_clear : ℚ := 250

/-- Source `ENDCAP_CLR_JOINTS`: joint target for the slot-0 (endcap) approach. -/
def ENDCAP_CLR_JOINTS : Joints := [dec 3741 2, dec (-7276) 2, dec 8321 2, dec (-10044) 2, dec (-8973) 2, dec (-14251) 2]
/-- Source `INTERMEDIATE_JOINTS` for the endcap-to-pedestal relay. -/
def INTERMEDIATE_JOINTS : Joints :=
  [dec 8348806 6, dec (-77787199) 6, dec 103336014 6, dec (-25548815) 6, dec 8348806 6,
   dec (-194849375) 6]
/-- Source `PED_CLR_JOINTS`: pedestal clear joint target. -/
def PED_CLR_JOINTS : Joints := [dec 1532 2, dec (-964) 1, dec 14341 2, dec (-4702) 2, dec 153 1, -180]
/-- Source `PED_DROP_JOINTS`: pedestal drop joint target. -/
def PED_DROP_JOINTS : Joints := [dec 1531 2, dec (-8425) 2, dec 14734 2, dec (-6309) 2, dec 153 1, -180]

/-- Literal custom-code string `rq_close_and_wait()`. -/
def RQ_CLOSE_AND_WAIT : String := "rq_close_and_wait()"
/-- Literal custom-code string `rq_open()`. -/
def RQ_OPEN : String := "rq_open()"
/-- Literal custom-code string `clamp()`. -/
def CLAMP_CODE : String := "clamp()"
/-- Literal custom-code string `unclamp()`. -/
def UNCLAMP_CODE : String := "unclamp()"
/-- Literal custom-code string of the final torque-limited tightening call. -/
def TIGHTEN_TORQUE_CODE : String :=
  "tighten_torque(2, -205.27, -115.27, 2, 2, 1, 100, 100, 50)"

/-- Source `set_motion_params(speed, acceleration, robot)`: `robot.setSpeed(speed)`
then `robot.setAcceleration(acceleration)`. -/
def set_motion_params (speed acceleration : ℚ) : List Cmd :=
  [Cmd.setSpeed speed, Cmd.setAcceleration acceleration]

/-- Source `tray_pose(tray_index, z)`: Cartesian pose for a tray slot at height `z`
with orientation `[180, 0, 90]`; `none` models the `KeyError` for a slot id
outside the dictionary. -/
def tray_pose (tray_index : ℤ) (z : ℚ) : Option Pose :=
  (tray_coords tray_index).map fun xy => ⟨xy.1, xy.2, z, 180, 0, 90⟩

/-- Source `goto_and_pickup_tray(tray_slot_index, pickup_height, clear_height, robot)`:
set motion params, then for slot 0 a joint move to `ENDCAP_CLR_JOINTS`,
linear descent, gripper close-and-wait, linear retract; for other slots a
joint-interpolated move to the tray pose at clear height, linear descent,
gripper close-and-wait, linear retract.  `none` models the `KeyError` from
`tray_pose` on an unknown slot. -/
def goto_and_pickup_tray (tray_slot_index : ℤ) (pickup_height clear_height : ℚ) :
    Option (List Cmd) :=
  if tray_slot_index = 0 then
    some (set_motion_params 1000 GLOBAL_ACCELERATION ++
      [Cmd.moveJJoints ENDCAP_CLR_JOINTS,
       Cmd.moveLPose ⟨dec (-4144) 1, dec (-45617) 2, pickup_height, 180, 0, 90⟩,
       Cmd.runCodeCustom RQ_CLOSE_AND_WAIT,
       Cmd.moveLPose ⟨dec (-4144) 1, dec (-45617) 2, clear_height, 180, 0, 90⟩])
  else do
    let approach ← tray_pose tray_slot_index clear_height
    let pickup ← tray_pose tray_slot_index pickup_height
    return set_motion_params 1000 GLOBAL_ACCELERATION ++
      [Cmd.moveJPose approach,
       Cmd.moveLPose pickup,
       Cmd.runCodeCustom RQ_CLOSE_AND_WAIT,
       Cmd.moveLPose approach]

/-- Source `goto_and_release_tray(tray_slot_index, release_height, clear_height, robot)`:
set motion params, linear move to the tray pose at clear height, reduce the
speed to 200, linear descent to the release height, gripper open, linear
retract to the clear-height pose. -/
def goto_and_release_tray (tray_slot_index : ℤ) (release_height clear_height : ℚ) :
    Option (List Cmd) := do
  let approach ← tray_pose tray_slot_index clear_height
  let release ← tray_pose tray_slot_index release_height
  return set_motion_params 1000 GLOBAL_ACCELERATION ++
    [Cmd.moveLPose approach,
     Cmd.setSpeed 200,
     Cmd.moveLPose release,
     Cmd.runCodeCustom RQ_OPEN,
     Cmd.moveLPose approach]

/-- Source `move_endcap_to_pedestal(robot)`: joint relay via `INTERMEDIATE_JOINTS`
and `PED_CLR_JOINTS`, linear move to `PED_DROP_JOINTS`, gripper open, joint
move back to `PED_CLR_JOINTS`. -/
def move_endcap_to_pedestal : List Cmd :=
  set_motion_params 1000 GLOBAL_ACCELERATION ++
  [Cmd.moveJJoints INTERMEDIATE_JOINTS,
   Cmd.moveJJoints PED_CLR_JOINTS,
   Cmd.moveLJoints PED_DROP_JOINTS,
   Cmd.runCodeCustom RQ_OPEN,
   Cmd.moveJJoints PED_CLR_JOINTS]

/-- Source `pickup_from_clamp(pickup_height, clear_height, robot)`: set motion
params, reduce speed to 200, linear move to the pickup pose at `CLAMP_XY`,
gripper close-and-wait, linear move to the clear-height pose at `CLAMP_XY`. -/
def pickup_from_clamp (pickup_height clear_height : ℚ) : List Cmd :=
  set_motion_params 1000 GLOBAL_ACCELERATION ++
  [Cmd.setSpeed 200,
   Cmd.moveLPose ⟨CLAMP_XY.1, CLAMP_XY.2, pickup_height, 180, 0, 90⟩,
   Cmd.runCodeCustom RQ_CLOSE_AND_WAIT,
   Cmd.moveLPose ⟨CLAMP_XY.1, CLAMP_XY.2, clear_height, 180, 0, 90⟩]

/-- Source `release_into_clamp(release_height, clear_height, robot)`: set motion
params, joint-interpolated move to the clear-height pose at `CLAMP_XY`,
reduce speed to 200, linear descent to the release pose, gripper open,
linear retract to the clear-height pose. -/
def release_into_clamp (release_height clear_height : ℚ) : List Cmd :=
  set_motion_params 1000 GLOBAL_ACCELERATION ++
  [Cmd.moveJPose ⟨CLAMP_XY.1, CLAMP_XY.2, clear_height, 180, 0, 90⟩,
   Cmd.setSpeed 200,
   Cmd.moveLPose ⟨CLAMP_XY.1, CLAMP_XY.2, release_height, 180, 0, 90⟩,
   Cmd.runCodeCustom RQ_OPEN,
   Cmd.moveLPose ⟨CLAMP_XY.1, CLAMP_XY.2, clear_height, 180, 0, 90⟩]

/-- Local `new_clamp_x` inside `tighten_cap`. -/
def new_clamp_x : ℚ := dec (-32225) 2
/-- Local `new_clamp_y` inside `tighten_cap`. -/
def new_clamp_y : ℚ := dec 3878 2
/-- Local `initial_turning_angle` inside `tighten_cap`. -/
def initial_turning_angle : Joints :=
  [dec (-2651) 2, dec (-11518) 2, dec 11267 2, dec (-8748) 2, -90, dec (-20651) 2]
/-- Local `final_turning_angle` inside `tighten_cap`. -/
def final_turning_angle : Joints :=
  [dec (-26510124) 6, dec (-115194661) 6, dec 113040864 6, dec (-87836005) 6,
   dec (-89999890) 6, dec 11929876 6]
/-- Local `tighten_torque_pose` inside `tighten_cap`. -/
def tighten_torque_pose : Joints :=
  [dec (-2651) 2, dec (-11518) 2, dec 11267 2, dec (-8748) 2, -90, dec (-20651) 2]

/-- The body of one iteration of the `for i in range(6)` loop in
`tighten_cap`: gripper close-and-wait, joint move to the final turning
angle, gripper open, joint speed 200, joint move back to the initial
turning angle. -/
def tighten_cycle : List Cmd :=
  [Cmd.runCodeCustom RQ_CLOSE_AND_WAIT,
   Cmd.moveJJoints final_turning_angle,
   Cmd.runCodeCustom RQ_OPEN,
   Cmd.setSpeedJoints 200,
   Cmd.moveJJoints initial_turning_angle]

/-- Source `tighten_cap(robot)`: set motion params, engage the clamp, joint move to
the safe pose at `(new_clamp_x, new_clamp_y)`, linear move to the initial
turning angle, joint speed 700, six oscillation cycles, joint move to
`tighten_torque_pose`, the torque-limited tightening custom code, unclamp. -/
def tighten_cap : List Cmd :=
  set_motion_params 1000 GLOBAL_ACCELERATION ++
  [Cmd.runCodeCustom CLAMP_CODE,
   Cmd.moveJPose ⟨new_clamp_x, new_clamp_y, CLAMP_HEIGHTS_clear, 180, 0, 90⟩,
   Cmd.moveLJoints initial_turning_angle,
   Cmd.setSpeedJoints 700] ++
  ((List.range 6).flatMap fun _ => tighten_cycle) ++
  [Cmd.moveJJoints tighten_torque_pose,
   Cmd.runCodeCustom TIGHTEN_TORQUE_CODE,
   Cmd.runCodeCustom UNCLAMP_CODE]

/-- Source `main()`: unclamp, home, set motion params, pick endcap (slot 0) and
relay it to the pedestal, pick head (slot 2) and release into clamp, pick
battery (slot 1) and release into clamp, pick pedestal assembly (slot 3)
and tighten the cap, pick the finished item from the clamp and release it
into tray slot 4, return home. -/
def main : Option (List Cmd) := do
  let pickEndcap ← goto_and_pickup_tray 0 GRIP_HEIGHTS_endcap CLEAR_HEIGHT
  let pickHead ← goto_and_pickup_tray 2 GRIP_HEIGHTS_head CLEAR_HEIGHT
  let pickBattery ← goto_and_pickup_tray 1 GRIP_HEIGHTS_battery CLEAR_HEIGHT
  let pickPedestal ← goto_and_pickup_tray 3 GRIP_HEIGHTS_pedestal CLEAR_HEIGHT
  let releaseFinished ← goto_and_release_tray 4 (dec 8990 2) CLEAR_HEIGHT
  return [Cmd.runCodeCustom UNCLAMP_CODE,
     Cmd.moveJJoints HOME_POSITION] ++
    set_motion_params 1000 GLOBAL_ACCELERATION ++
    pickEndcap ++ move_endcap_to_pedestal ++
    pickHead ++ release_into_clamp CLAMP_HEIGHTS_release_head CLAMP_HEIGHTS_clear ++
    pickBattery ++ release_into_clamp CLAMP_HEIGHTS_release_battery CLAMP_HEIGHTS_clear ++
    pickPedestal ++ tighten_cap ++
    pickup_from_clamp 185 CLAMP_HEIGHTS_clear ++
    releaseFinished ++
    [Cmd.moveJJoints HOME_POSITION]

/-- Predicate selecting the motion commands (the four `MoveJ`/`MoveL` forms)
among all issued commands. -/
def isMove : Cmd → Bool
  | Cmd.moveJJoints _ => true
  | Cmd.moveJPose _ => true
  | Cmd.moveLPose _ => true
  | Cmd.moveLJoints _ => true
  | _ => false

/-- Cartesian pose targeted by a command, if it is a pose-targeted move. -/
def poseTarget : Cmd → Option Pose
  | Cmd.moveJPose p => some p
  | Cmd.moveLPose p => some p
  | _ => none

/-- All Cartesian poses issued by a command sequence, in order. -/
def posesOf (t : List Cmd) : List Pose := t.filterMap poseTarget

/-- Tray slot whose configured coordinate equals the `(x, y)` of a pose,
if any. -/
def poseSlot (p : Pose) : Option ℤ :=
  ([0, 1, 2, 3, 4] : List ℤ).find? fun s => tray_coords s = some (p.x, p.y)

/-- Collapses consecutive duplicates, keeping the order of first visits of
each run. -/
def dedupConsec : List ℤ → List ℤ
  | [] => []
  | [a] => [a]
  | a :: b :: rest =>
      if a = b then dedupConsec (b :: rest) else a :: dedupConsec (b :: rest)

/-- Tray slots visited by a command sequence, in order: the slots whose
coordinates the issued poses target, with consecutive repeats (approach,
descend, retract at one slot) collapsed. -/
def visitedSlots (t : List Cmd) : List ℤ :=
  dedupConsec (t.filterMap fun c => (poseTarget c).bind poseSlot)

/-- Orientation of a pose is the fixed `(180, 0, 90)` degrees used by all
tray and clamp operations. -/
def orientOK (p : Pose) : Prop := p.roll = 180 ∧ p.pitch = 0 ∧ p.yaw = 90

instance (p : Pose) : Decidable (orientOK p) := by
  unfold orientOK; infer_instance

/-- Modelled from the spec: the clamp's engaged/released state is owned by
the external robot controller and is not represented in the script; the
`clamp()` custom code engages the clamp, the `unclamp()` custom code
releases it, and every other command leaves it unchanged. -/
def clampStep (st : Bool) (c : Cmd) : Bool :=
  match c with
  | Cmd.runCodeCustom code =>
      if code = CLAMP_CODE then true
      else if code = UNCLAMP_CODE then false
      else st
  | _ => st

lemma tray_pose_isSome_iff (s : ℤ) (z : ℚ) :
    (tray_pose s z).isSome ↔ (tray_coords s).isSome := by
  simp [tray_pose]

lemma orientOK_of_tray_pose {s : ℤ} {z : ℚ} {p : Pose}
    (h : tray_pose s z = some p) : orientOK p := by
  simp only [tray_pose, Option.map_eq_some'] at h
  obtain ⟨xy, -, rfl⟩ := h
  exact ⟨rfl, rfl, rfl⟩

/-- C1, counterexample: the very first command `main` issues is the
`unclamp()` custom code, which is not a move to `HOME_POSITION`; so the move
to the home joint target is not the first action of the command sequence. -/
theorem main_first_command_is_unclamp_not_home :
    main.map (fun t => t.head?) = some (some (Cmd.runCodeCustom UNCLAMP_CODE)) ∧
    Cmd.runCodeCustom UNCLAMP_CODE ≠ Cmd.moveJJoints HOME_POSITION :=
  ⟨rfl, by decide⟩

/-- C1, amended: the command sequence issued by `main` visits the tray slots
in exactly the order 0, 2, 1, 3, 4; the move to the home joint target
`HOME_POSITION` is the last action of the sequence and its first motion
action — the only command preceding it is the initial `unclamp()` safety
reset. -/
theorem main_visits_slots_in_order_and_home :
    main.map visitedSlots = some [0, 2, 1, 3, 4] ∧
    main.map (fun t => t.take 2) =
      some [Cmd.runCodeCustom UNCLAMP_CODE, Cmd.moveJJoints HOME_POSITION] ∧
    main.map (fun t => (t.filter isMove).head?) =
      some (some (Cmd.moveJJoints HOME_POSITION)) ∧
    main.map (fun t => t.getLast?) =
      some (some (Cmd.moveJJoints HOME_POSITION)) := by
  refine ⟨?_, ?_, ?_, ?_⟩ <;> decide

/-- C2: `tighten_cap` is its fixed preamble, then exactly six copies of the
open/close oscillation cycle between the two fixed joint targets, then the
joint move to the torque pose, the torque-limited tightening command, and
the unclamp; before the torque command there are exactly six gripper closes,
six gripper opens and six moves to the final turning angle, and the commands
from the torque command on are exactly the torque command followed by the
unclamp. -/
theorem tighten_cap_six_cycles_then_torque_then_unclamp :
    tighten_cap =
      [Cmd.setSpeed 1000, Cmd.setAcceleration 500,
       Cmd.runCodeCustom CLAMP_CODE,
       Cmd.moveJPose ⟨new_clamp_x, new_clamp_y, CLAMP_HEIGHTS_clear, 180, 0, 90⟩,
       Cmd.moveLJoints initial_turning_angle,
       Cmd.setSpeedJoints 700] ++
      (List.replicate 6 tighten_cycle).flatten ++
      [Cmd.moveJJoints tighten_torque_pose,
       Cmd.runCodeCustom TIGHTEN_TORQUE_CODE,
       Cmd.runCodeCustom UNCLAMP_CODE] ∧
    (tighten_cap.takeWhile (fun c => c != Cmd.runCodeCustom TIGHTEN_TORQUE_CODE)).count
        (Cmd.runCodeCustom RQ_CLOSE_AND_WAIT) = 6 ∧
    (tighten_cap.takeWhile (fun c => c != Cmd.runCodeCustom TIGHTEN_TORQUE_CODE)).count
        (Cmd.runCodeCustom RQ_OPEN) = 6 ∧
    (tighten_cap.takeWhile (fun c => c != Cmd.runCodeCustom TIGHTEN_TORQUE_CODE)).count
        (Cmd.moveJJoints final_turning_angle) = 6 ∧
    tighten_cap.dropWhile (fun c => c != Cmd.runCodeCustom TIGHTEN_TORQUE_CODE) =
      [Cmd.runCodeCustom TIGHTEN_TORQUE_CODE, Cmd.runCodeCustom UNCLAMP_CODE] := by
  refine ⟨?_, ?_, ?_, ?_, ?_⟩ <;> decide

/-- C3: at the invocation `main` makes, the motion commands of
`pickup_from_clamp` are just the linear descent to the pickup pose and the
linear retract — there is no approach move at the clear height before the
descent, although the clear height differs from the pickup height — while
`release_into_clamp` does move to the clear-height pose, descend, and
retract. -/
theorem pickup_from_clamp_missing_approach_step :
    (pickup_from_clamp 185 CLAMP_HEIGHTS_clear).filter isMove =
      [Cmd.moveLPose ⟨CLAMP_XY.1, CLAMP_XY.2, 185, 180, 0, 90⟩,
       Cmd.moveLPose ⟨CLAMP_XY.1, CLAMP_XY.2, CLAMP_HEIGHTS_clear, 180, 0, 90⟩] ∧
    (185 : ℚ) ≠ CLAMP_HEIGHTS_clear ∧
    (release_into_clamp CLAMP_HEIGHTS_release_head CLAMP_HEIGHTS_clear).filter isMove =
      [Cmd.moveJPose ⟨CLAMP_XY.1, CLAMP_XY.2, CLAMP_HEIGHTS_clear, 180, 0, 90⟩,
       Cmd.moveLPose ⟨CLAMP_XY.1, CLAMP_XY.2, CLAMP_HEIGHTS_release_head, 180, 0, 90⟩,
       Cmd.moveLPose ⟨CLAMP_XY.1, CLAMP_XY.2, CLAMP_HEIGHTS_clear, 180, 0, 90⟩] := by
  refine ⟨?_, ?_, ?_⟩ <;> decide

/-- C4: for every configured tray slot id (0–4) and every height `z`,
`tray_pose` returns a pose whose `(x, y)` is the configured tray coordinate
of that slot and whose `z` is the requested height. -/
theorem tray_pose_matches_coords (s : ℤ) (z : ℚ)
    (hs : s ∈ ([0, 1, 2, 3, 4] : List ℤ)) :
    (tray_coords s).isSome ∧
    ∀ xy, tray_coords s = some xy →
      tray_pose s z = some ⟨xy.1, xy.2, z, 180, 0, 90⟩ := by
  refine ⟨?_, fun xy hxy => by simp [tray_pose, hxy]⟩
  fin_cases hs <;> rfl

/-- C4, witness at slot 2 and height 55. -/
theorem tray_pose_matches_coords_witness :
    (2 : ℤ) ∈ ([0, 1, 2, 3, 4] : List ℤ) ∧
    (tray_coords 2).isSome ∧
    tray_pose 2 55 = some ⟨dec (-25908) 2, dec (-45745) 2, 55, 180, 0, 90⟩ :=
  ⟨by decide, (tray_pose_matches_coords 2 55 (by decide)).1,
   (tray_pose_matches_coords 2 55 (by decide)).2
     (dec (-25908) 2, dec (-45745) 2) (by decide)⟩

/-- C5: for slot 0, `goto_and_pickup_tray` approaches with the joint move to
`ENDCAP_CLR_JOINTS` and issues no joint-interpolated Pose move at all; for
every other slot on which it succeeds, the first motion command is the
joint-interpolated move to the Cartesian tray pose at the clear height. -/
theorem goto_and_pickup_tray_slot0_joint_approach (ph ch : ℚ) (s : ℤ) (a : Pose)
    (hs : s ≠ 0) (ha : tray_pose s ch = some a) :
    (goto_and_pickup_tray 0 ph ch).map (List.filter isMove) =
      some [Cmd.moveJJoints ENDCAP_CLR_JOINTS,
        Cmd.moveLPose ⟨dec (-4144) 1, dec (-45617) 2, ph, 180, 0, 90⟩,
        Cmd.moveLPose ⟨dec (-4144) 1, dec (-45617) 2, ch, 180, 0, 90⟩] ∧
    (∀ t, goto_and_pickup_tray 0 ph ch = some t → ∀ p, Cmd.moveJPose p ∉ t) ∧
    (goto_and_pickup_tray s ph ch).map (fun t => (t.filter isMove).head?) =
      some (some (Cmd.moveJPose a)) := by
  have hv : (tray_pose s ch).isSome := by rw [ha]; rfl
  have hph : ∃ b, tray_pose s ph = some b := by
    rw [← Option.isSome_iff_exists, tray_pose_isSome_iff]
    rw [tray_pose_isSome_iff] at hv
    exact hv
  obtain ⟨b, hb⟩ := hph
  refine ⟨?_, ?_, ?_⟩
  · simp [goto_and_pickup_tray, set_motion_params, isMove]
  · have h0 : goto_and_pickup_tray 0 ph ch =
        some [Cmd.setSpeed 1000, Cmd.setAcceleration GLOBAL_ACCELERATION,
          Cmd.moveJJoints ENDCAP_CLR_JOINTS,
          Cmd.moveLPose ⟨dec (-4144) 1, dec (-45617) 2, ph, 180, 0, 90⟩,
          Cmd.runCodeCustom RQ_CLOSE_AND_WAIT,
          Cmd.moveLPose ⟨dec (-4144) 1, dec (-45617) 2, ch, 180, 0, 90⟩] := by
      simp [goto_and_pickup_tray, set_motion_params]
    intro t ht p
    rw [h0, Option.some_inj] at ht
    subst ht
    simp
  · simp [goto_and_pickup_tray, if_neg hs, ha, hb, set_motion_params, isMove]

/-- C5, witness at slot 2 with the heights used by `main`. -/
theorem goto_and_pickup_tray_slot0_joint_approach_witness :
    ((2 : ℤ) ≠ 0 ∧
      tray_pose 2 CLEAR_HEIGHT =
        some ⟨dec (-25908) 2, dec (-45745) 2, CLEAR_HEIGHT, 180, 0, 90⟩) ∧
    (goto_and_pickup_tray 0 GRIP_HEIGHTS_head CLEAR_HEIGHT).map (List.filter isMove) =
      some [Cmd.moveJJoints ENDCAP_CLR_JOINTS,
        Cmd.moveLPose ⟨dec (-4144) 1, dec (-45617) 2, GRIP_HEIGHTS_head, 180, 0, 90⟩,
        Cmd.moveLPose ⟨dec (-4144) 1, dec (-45617) 2, CLEAR_HEIGHT, 180, 0, 90⟩] ∧
    Cmd.moveJPose ⟨0, 0, 0, 0, 0, 0⟩ ∉
      [Cmd.setSpeed 1000, Cmd.setAcceleration GLOBAL_ACCELERATION,
       Cmd.moveJJoints ENDCAP_CLR_JOINTS,
       Cmd.moveLPose ⟨dec (-4144) 1, dec (-45617) 2, GRIP_HEIGHTS_head, 180, 0, 90⟩,
       Cmd.runCodeCustom RQ_CLOSE_AND_WAIT,
       Cmd.moveLPose ⟨dec (-4144) 1, dec (-45617) 2, CLEAR_HEIGHT, 180, 0, 90⟩] ∧
    (goto_and_pickup_tray 2 GRIP_HEIGHTS_head CLEAR_HEIGHT).map
        (fun t => (t.filter isMove).head?) =
      some (some (Cmd.moveJPose
        ⟨dec (-25908) 2, dec (-45745) 2, CLEAR_HEIGHT, 180, 0, 90⟩)) :=
  ⟨⟨by decide, by decide⟩,
   (goto_and_pickup_tray_slot0_joint_approach GRIP_HEIGHTS_head CLEAR_HEIGHT 2
     ⟨dec (-25908) 2, dec (-45745) 2, CLEAR_HEIGHT, 180, 0, 90⟩
     (by decide) (by decide)).1,
   (goto_and_pickup_tray_slot0_joint_approach GRIP_HEIGHTS_head CLEAR_HEIGHT 2
     ⟨dec (-25908) 2, dec (-45745) 2, CLEAR_HEIGHT, 180, 0, 90⟩
     (by decide) (by decide)).2.1 _ (by decide) ⟨0, 0, 0, 0, 0, 0⟩,
   (goto_and_pickup_tray_slot0_joint_approach GRIP_HEIGHTS_head CLEAR_HEIGHT 2
     ⟨dec (-25908) 2, dec (-45745) 2, CLEAR_HEIGHT, 180, 0, 90⟩
     (by decide) (by decide)).2.2⟩

/-- C6: `tray_pose` succeeds (returns a pose) exactly on the configured slot
ids 0–4, for any height; on every other slot id the lookup fails. -/
theorem tray_pose_some_iff_configured (s : ℤ) (z : ℚ) :
    (tray_pose s z).isSome ↔ s ∈ ([0, 1, 2, 3, 4] : List ℤ) := by
  rw [tray_pose_isSome_iff]
  unfold tray_coords
  split_ifs with h1 h2 h3 h4 h5 <;> simp_all

/-- C7: whenever `goto_and_release_tray` succeeds, it issues exactly: the
motion-parameter setup at speed 1000, a linear move to the tray pose at the
clear height, a speed reduction to 200 (lower than the 1000 just set), a
linear descent to the release-height pose, the gripper-open command, and a
linear retract to the clear-height pose. -/
theorem goto_and_release_tray_sequence (s : ℤ) (rh ch : ℚ) (a r : Pose)
    (ha : tray_pose s ch = some a) (hr : tray_pose s rh = some r) :
    goto_and_release_tray s rh ch =
      some [Cmd.setSpeed 1000, Cmd.setAcceleration GLOBAL_ACCELERATION,
        Cmd.moveLPose a, Cmd.setSpeed 200, Cmd.moveLPose r,
        Cmd.runCodeCustom RQ_OPEN, Cmd.moveLPose a] ∧
    (200 : ℚ) < 1000 :=
  ⟨by simp [goto_and_release_tray, ha, hr, set_motion_params], by norm_num⟩

/-- C7, witness at slot 4 with the heights used by `main`. -/
theorem goto_and_release_tray_sequence_witness :
    tray_pose 4 CLEAR_HEIGHT =
      some ⟨dec (-2568) 1, dec (-4581) 1, CLEAR_HEIGHT, 180, 0, 90⟩ ∧
    tray_pose 4 (dec 8990 2) =
      some ⟨dec (-2568) 1, dec (-4581) 1, dec 8990 2, 180, 0, 90⟩ ∧
    goto_and_release_tray 4 (dec 8990 2) CLEAR_HEIGHT =
      some [Cmd.setSpeed 1000, Cmd.setAcceleration GLOBAL_ACCELERATION,
        Cmd.moveLPose ⟨dec (-2568) 1, dec (-4581) 1, CLEAR_HEIGHT, 180, 0, 90⟩,
        Cmd.setSpeed 200,
        Cmd.moveLPose ⟨dec (-2568) 1, dec (-4581) 1, dec 8990 2, 180, 0, 90⟩,
        Cmd.runCodeCustom RQ_OPEN,
        Cmd.moveLPose ⟨dec (-2568) 1, dec (-4581) 1, CLEAR_HEIGHT, 180, 0, 90⟩] ∧
    (200 : ℚ) < 1000 :=
  ⟨by decide, by decide,
   (goto_and_release_tray_sequence 4 (dec 8990 2) CLEAR_HEIGHT
     ⟨dec (-2568) 1, dec (-4581) 1, CLEAR_HEIGHT, 180, 0, 90⟩
     ⟨dec (-2568) 1, dec (-4581) 1, dec 8990 2, 180, 0, 90⟩
     (by decide) (by decide)).1,
   (goto_and_release_tray_sequence 4 (dec 8990 2) CLEAR_HEIGHT
     ⟨dec (-2568) 1, dec (-4581) 1, CLEAR_HEIGHT, 180, 0, 90⟩
     ⟨dec (-2568) 1, dec (-4581) 1, dec 8990 2, 180, 0, 90⟩
     (by decide) (by decide)).2⟩

/-- C8: every Cartesian pose issued by the tray and clamp operations —
`goto_and_pickup_tray`, `goto_and_release_tray`, `pickup_from_clamp`,
`release_into_clamp`, `tighten_cap`, and `tray_pose` itself — has
orientation exactly `(180, 0, 90)` degrees; the remaining commands are
joint-angle targets carrying no Cartesian orientation. -/
theorem fixed_orientation_invariant (s : ℤ) (a b : ℚ) :
    (∀ t, goto_and_pickup_tray s a b = some t → ∀ p ∈ posesOf t, orientOK p) ∧
    (∀ t, goto_and_release_tray s a b = some t → ∀ p ∈ posesOf t, orientOK p) ∧
    (∀ p ∈ posesOf (pickup_from_clamp a b), orientOK p) ∧
    (∀ p ∈ posesOf (release_into_clamp a b), orientOK p) ∧
    (∀ p ∈ posesOf tighten_cap, orientOK p) ∧
    (∀ p, tray_pose s a = some p → orientOK p) := by
  refine ⟨?_, ?_, ?_, ?_, by decide, fun p hp => orientOK_of_tray_pose hp⟩
  · intro t ht p hp
    by_cases h0 : s = 0
    · subst h0
      rw [goto_and_pickup_tray, if_pos rfl, Option.some_inj] at ht
      subst ht
      simp [posesOf, poseTarget, set_motion_params] at hp
      rcases hp with rfl | rfl <;> exact ⟨rfl, rfl, rfl⟩
    · rw [goto_and_pickup_tray, if_neg h0] at ht
      cases hc : tray_pose s b with
      | none => rw [hc] at ht; exact absurd ht (by simp)
      | some ap =>
        cases hpk : tray_pose s a with
        | none => rw [hc, hpk] at ht; exact absurd ht (by simp)
        | some pk =>
          rw [hc, hpk] at ht
          simp only [Option.bind_eq_bind, Option.some_bind, Option.pure_def,
            Option.some_inj] at ht
          subst ht
          simp [posesOf, poseTarget, set_motion_params] at hp
          rcases hp with rfl | rfl | rfl
          · exact orientOK_of_tray_pose hc
          · exact orientOK_of_tray_pose hpk
          · exact orientOK_of_tray_pose hc
  · intro t ht p hp
    cases hc : tray_pose s b with
    | none => rw [goto_and_release_tray, hc] at ht; exact absurd ht (by simp)
    | some ap =>
      cases hrl : tray_pose s a with
      | none => rw [goto_and_release_tray, hc, hrl] at ht; exact absurd ht (by simp)
      | some rl =>
        rw [goto_and_release_tray, hc, hrl] at ht
        simp only [Option.bind_eq_bind, Option.some_bind, Option.pure_def,
            Option.some_inj] at ht
        subst ht
        simp [posesOf, poseTarget, set_motion_params] at hp
        rcases hp with rfl | rfl | rfl
        · exact orientOK_of_tray_pose hc
        · exact orientOK_of_tray_pose hrl
        · exact orientOK_of_tray_pose hc
  · intro p hp
    simp [pickup_from_clamp, posesOf, poseTarget, set_motion_params] at hp
    rcases hp with rfl | rfl <;> exact ⟨rfl, rfl, rfl⟩
  · intro p hp
    simp [release_into_clamp, posesOf, poseTarget, set_motion_params] at hp
    rcases hp with rfl | rfl | rfl <;> exact ⟨rfl, rfl, rfl⟩

/-- C8, witness: the clamp pickup pose used by `main` and the slot-2 tray
pose at clear height both carry orientation `(180, 0, 90)`. -/
theorem fixed_orientation_invariant_witness :
    orientOK ⟨CLAMP_XY.1, CLAMP_XY.2, 185, 180, 0, 90⟩ ∧
    orientOK ⟨dec (-25908) 2, dec (-45745) 2, CLEAR_HEIGHT, 180, 0, 90⟩ :=
  ⟨(fixed_orientation_invariant 2 185 CLAMP_HEIGHTS_clear).2.2.1
     ⟨CLAMP_XY.1, CLAMP_XY.2, 185, 180, 0, 90⟩ (by decide),
   (fixed_orientation_invariant 2 CLEAR_HEIGHT 130).2.2.2.2.2
     ⟨dec (-25908) 2, dec (-45745) 2, CLEAR_HEIGHT, 180, 0, 90⟩ (by decide)⟩

/-- C9: over the modelled clamp state, the `unclamp()` command is
idempotent — issuing it twice in a row gives the same state as issuing it
once, and either way the clamp ends up unclamped regardless of the prior
state — and the unconditional unclamp is indeed the first command `main`
issues. -/
theorem unclamp_idempotent_safe_start (st : Bool) :
    clampStep (clampStep st (Cmd.runCodeCustom UNCLAMP_CODE))
        (Cmd.runCodeCustom UNCLAMP_CODE) =
      clampStep st (Cmd.runCodeCustom UNCLAMP_CODE) ∧
    clampStep st (Cmd.runCodeCustom UNCLAMP_CODE) = false ∧
    main.map (fun t => t.head?) = some (some (Cmd.runCodeCustom UNCLAMP_CODE)) :=
  ⟨rfl, rfl, rfl⟩

/-- C10: every Cartesian pose issued by `tighten_cap` is anchored at
`(x, y) = (-322.25, 38.78)`, which differs from the shared clamp anchor
`CLAMP_XY = (-322.98, 38.3)` at which every pose of `pickup_from_clamp` and
`release_into_clamp` is anchored. -/
theorem tighten_cap_uses_different_clamp_anchor (a b : ℚ) :
    (new_clamp_x, new_clamp_y) = (dec (-32225) 2, dec 3878 2) ∧
    CLAMP_XY = (dec (-32298) 2, dec 383 1) ∧
    (new_clamp_x, new_clamp_y) ≠ CLAMP_XY ∧
    (∀ p ∈ posesOf tighten_cap, (p.x, p.y) = (new_clamp_x, new_clamp_y)) ∧
    (∀ p ∈ posesOf (pickup_from_clamp a b), (p.x, p.y) = CLAMP_XY) ∧
    (∀ p ∈ posesOf (release_into_clamp a b), (p.x, p.y) = CLAMP_XY) := by
  refine ⟨rfl, rfl, by decide, by decide, ?_, ?_⟩
  · intro p hp
    simp [pickup_from_clamp, posesOf, poseTarget, set_motion_params] at hp
    rcases hp with rfl | rfl <;> rfl
  · intro p hp
    simp [release_into_clamp, posesOf, poseTarget, set_motion_params] at hp
    rcases hp with rfl | rfl | rfl <;> rfl

/-- C10, witness: the clamp pickup pose used by `main` sits at `CLAMP_XY`,
and the two anchors differ. -/
theorem tighten_cap_uses_different_clamp_anchor_witness :
    ((Pose.mk CLAMP_XY.1 CLAMP_XY.2 185 180 0 90).x,
      (Pose.mk CLAMP_XY.1 CLAMP_XY.2 185 180 0 90).y) = CLAMP_XY ∧
    (new_clamp_x, new_clamp_y) ≠ CLAMP_XY :=
  ⟨(tighten_cap_uses_different_clamp_anchor 185 CLAMP_HEIGHTS_clear).2.2.2.2.1
     ⟨CLAMP_XY.1, CLAMP_XY.2, 185, 180, 0, 90⟩ (by decide),
   (tighten_cap_uses_different_clamp_anchor 185 CLAMP_HEIGHTS_clear).2.2.1⟩

end FlashlightAssembly
